import Mathlib

/-!
Verification of the HoPiler lexical and syntax analysis pipeline.

The definitions below are a shallow embedding of the C++ sources:
the token model (tokens.hpp), the character-level scanner
(Tokenizer::parseCurrentToken and Tokenizer::_getTokens in tokenizer.hpp,
with the file reading stripped: the scanner is modelled as a function of
the source text), and the statement builder (Parser::parseTree and
Parser::isValidKeywordLiteralPair in parser.hpp, together with
ExpressionNode from expNode.hpp).  C++ exceptions are modelled with
Except: a thrown exception that is not caught becomes an error result of
the whole call; the catch blocks of _getTokens are modelled where the
source has them (at the newline branch and at end of input) and nowhere
else.  Machine integers only occur as tiny enum codes and small counts,
so Nat is used for them.
-/

namespace HoPiler

/-- Token categories, in the declaration order of tokens.hpp. -/
inductive TokenType where
  | _keyWord
  | _identifier
  | _literal
  | _operator
  | _delimiter
  | _comment
  | _whitespace
  | _expression
  deriving DecidableEq

/-- Keyword subtypes, in the declaration order of tokens.hpp
(the order matters: the parser compares the underlying enum codes). -/
inductive KeyWordType where
  | _if
  | _elif
  | _else
  | _for
  | _while
  | _do
  | _return
  | _break
  | _continue
  | _int
  | _float
  | _string
  | _char
  | _bool
  deriving DecidableEq

/-- Literal subtypes, in the declaration order of tokens.hpp. -/
inductive LiteralType where
  | _intLit
  | _floatLit
  | _stringLit
  | _charLit
  deriving DecidableEq

/-- Operator subtypes, in the declaration order of tokens.hpp. -/
inductive OperatorType where
  | _add
  | _sub
  | _mul
  | _div
  | _mod
  | _pow
  | _and
  | _or
  | _not
  | _xor
  | _eq
  | _neq
  | _gte
  | _lte
  | _gt
  | _lt
  | _ass
  | _assAdd
  | _assSub
  | _assMul
  | _assDiv
  | _assMod
  | _assPow
  deriving DecidableEq

/-- Delimiter subtypes, in the declaration order of tokens.hpp. -/
inductive DelimiterType where
  | _bracketOpen
  | _bracketClose
  | _braceOpen
  | _braceClose
  | _sqOpen
  | _sqClose
  deriving DecidableEq

/-- Whitespace subtypes, in the declaration order of tokens.hpp. -/
inductive WhiteSpaceType where
  | _space
  | _tab
  | _newLine
  deriving DecidableEq

/-- The C++ enum code of a keyword (position in the enum declaration). -/
def KeyWordType.toInt : KeyWordType → Nat
  | ._if => 0
  | ._elif => 1
  | ._else => 2
  | ._for => 3
  | ._while => 4
  | ._do => 5
  | ._return => 6
  | ._break => 7
  | ._continue => 8
  | ._int => 9
  | ._float => 10
  | ._string => 11
  | ._char => 12
  | ._bool => 13

/-- The C++ enum code of a literal subtype. -/
def LiteralType.toInt : LiteralType → Nat
  | ._intLit => 0
  | ._floatLit => 1
  | ._stringLit => 2
  | ._charLit => 3

/-- The C++ enum code of an operator subtype. -/
def OperatorType.toInt : OperatorType → Nat
  | ._add => 0
  | ._sub => 1
  | ._mul => 2
  | ._div => 3
  | ._mod => 4
  | ._pow => 5
  | ._and => 6
  | ._or => 7
  | ._not => 8
  | ._xor => 9
  | ._eq => 10
  | ._neq => 11
  | ._gte => 12
  | ._lte => 13
  | ._gt => 14
  | ._lt => 15
  | ._ass => 16
  | ._assAdd => 17
  | ._assSub => 18
  | ._assMul => 19
  | ._assDiv => 20
  | ._assMod => 21
  | ._assPow => 22

/-- The C++ enum code of a delimiter subtype. -/
def DelimiterType.toInt : DelimiterType → Nat
  | ._bracketOpen => 0
  | ._bracketClose => 1
  | ._braceOpen => 2
  | ._braceClose => 3
  | ._sqOpen => 4
  | ._sqClose => 5

/-- The C++ enum code of a whitespace subtype. -/
def WhiteSpaceType.toInt : WhiteSpaceType → Nat
  | ._space => 0
  | ._tab => 1
  | ._newLine => 2

/-- The Token class of tokens.hpp.  Each constructor corresponds to one
Token constructor overload (plus the identifier factory method); the
category tag and the fields meaningful for that category are carried by
the constructor, exactly the fields the overload initialises. -/
inductive Token where
  | keyWord (k : KeyWordType)
  | identifier (name : String)
  | literal (l : LiteralType) (value : String)
  | operator (o : OperatorType)
  | delimiter (d : DelimiterType)
  | comment (text : String)
  | whitespace (w : WhiteSpaceType)
  | expression
  deriving DecidableEq

/-- The tokenType field that every Token constructor sets. -/
def Token.tokenType : Token → TokenType
  | .keyWord _ => TokenType._keyWord
  | .identifier _ => TokenType._identifier
  | .literal _ _ => TokenType._literal
  | .operator _ => TokenType._operator
  | .delimiter _ => TokenType._delimiter
  | .comment _ => TokenType._comment
  | .whitespace _ => TokenType._whitespace
  | .expression => TokenType._expression

/-- The integer field _Token.token produced by Token::get: the enum code
of the category-specific subtype.  In the C++ the field is left
uninitialised for comment, identifier and expression tokens; the
embedding returns 0 there, and no verified code path reads the field for
those categories. -/
def Token.tokenIntCode : Token → Nat
  | .keyWord k => k.toInt
  | .literal l _ => l.toInt
  | .operator o => o.toInt
  | .delimiter d => d.toInt
  | .whitespace w => w.toInt
  | .identifier _ => 0
  | .comment _ => 0
  | .expression => 0

/-- The string field _Token.value produced by Token::get. -/
def Token.value : Token → String
  | .identifier name => name
  | .literal _ v => v
  | .comment text => text
  | _ => ""

/-- Operator associativity, as the nested enum of the Token class. -/
inductive Associativity where
  | LeftAssoc
  | RightAssoc
  | NonAssoc
  deriving DecidableEq

/-- Token::getPriority of tokens.hpp: 0 for non-operator tokens,
otherwise the precedence table. -/
def Token.getPriority (t : Token) : Nat :=
  match t with
  | .operator o =>
    match o with
    | ._pow => 80
    | ._mul => 60
    | ._div => 60
    | ._mod => 60
    | ._add => 50
    | ._sub => 50
    | ._gt => 40
    | ._lt => 40
    | ._gte => 40
    | ._lte => 40
    | ._eq => 35
    | ._neq => 35
    | ._and => 30
    | ._xor => 25
    | ._or => 20
    | ._not => 70
    | ._ass => 10
    | ._assAdd => 10
    | ._assSub => 10
    | ._assMul => 10
    | ._assDiv => 10
    | ._assMod => 10
    | ._assPow => 10
  | _ => 0

/-- Token::getAssociativity of tokens.hpp: NonAssoc for non-operator
tokens, RightAssoc for power, logical not and the assignment forms,
LeftAssoc for the remaining binary operators. -/
def Token.getAssociativity (t : Token) : Associativity :=
  match t with
  | .operator o =>
    match o with
    | ._pow => Associativity.RightAssoc
    | ._not => Associativity.RightAssoc
    | ._ass => Associativity.RightAssoc
    | ._assAdd => Associativity.RightAssoc
    | ._assSub => Associativity.RightAssoc
    | ._assMul => Associativity.RightAssoc
    | ._assDiv => Associativity.RightAssoc
    | ._assMod => Associativity.RightAssoc
    | ._assPow => Associativity.RightAssoc
    | ._mul => Associativity.LeftAssoc
    | ._div => Associativity.LeftAssoc
    | ._mod => Associativity.LeftAssoc
    | ._add => Associativity.LeftAssoc
    | ._sub => Associativity.LeftAssoc
    | ._gt => Associativity.LeftAssoc
    | ._lt => Associativity.LeftAssoc
    | ._gte => Associativity.LeftAssoc
    | ._lte => Associativity.LeftAssoc
    | ._eq => Associativity.LeftAssoc
    | ._neq => Associativity.LeftAssoc
    | ._and => Associativity.LeftAssoc
    | ._xor => Associativity.LeftAssoc
    | ._or => Associativity.LeftAssoc
  | _ => Associativity.NonAssoc

/-- The backslash character (code 92), named to keep escapes out of the
scanner definition. -/
def backslashChar : Char := Char.ofNat 92

/-- The double quote character (code 34). -/
def quoteChar : Char := Char.ofNat 34

/-- The single quote character (code 39). -/
def tickChar : Char := Char.ofNat 39

/-- The hash character (code 35), the comment lead-in. -/
def hashChar : Char := Char.ofNat 35

/-- The newline character (code 10). -/
def newlineChar : Char := Char.ofNat 10

/-- The tab character (code 9). -/
def tabChar : Char := Char.ofNat 9

/-- The space character (code 32). -/
def spaceChar : Char := Char.ofNat 32

/-- Tokenizer::parseCurrentToken of tokenizer.hpp, the classification of
one accumulated token text.  The source throws invalid_argument on a
malformed or unrecognised text; the embedding returns Except.error.  On
the empty string every equality test fails and the C++ then evaluates
currentToken.at(0), which throws out_of_range; that uncaught throw is
the "string index out of range" error case below.  The character
class tests isdigit, isalpha and isalnum are the ASCII ones, matching
Char.isDigit, Char.isAlpha and Char.isAlphanum on the single-byte input
the scanner assumes. -/
def parseCurrentToken (currentToken : String) : Except String Token :=
  if currentToken = "int" then Except.ok (Token.keyWord KeyWordType._int)
  else if currentToken = "char" then Except.ok (Token.keyWord KeyWordType._char)
  else if currentToken = "float" then Except.ok (Token.keyWord KeyWordType._float)
  else if currentToken = "string" then Except.ok (Token.keyWord KeyWordType._string)
  else if currentToken = "bool" then Except.ok (Token.keyWord KeyWordType._bool)
  else if currentToken = "if" then Except.ok (Token.keyWord KeyWordType._if)
  else if currentToken = "elif" then Except.ok (Token.keyWord KeyWordType._elif)
  else if currentToken = "else" then Except.ok (Token.keyWord KeyWordType._else)
  else if currentToken = "for" then Except.ok (Token.keyWord KeyWordType._for)
  else if currentToken = "while" then Except.ok (Token.keyWord KeyWordType._while)
  else if currentToken = "do" then Except.ok (Token.keyWord KeyWordType._do)
  else if currentToken = "return" then Except.ok (Token.keyWord KeyWordType._return)
  else if currentToken = "break" then Except.ok (Token.keyWord KeyWordType._break)
  else if currentToken = "continue" then Except.ok (Token.keyWord KeyWordType._continue)
  else if currentToken = "+" then Except.ok (Token.operator OperatorType._add)
  else if currentToken = "-" then Except.ok (Token.operator OperatorType._sub)
  else if currentToken = "*" then Except.ok (Token.operator OperatorType._mul)
  else if currentToken = "/" then Except.ok (Token.operator OperatorType._div)
  else if currentToken = "%" then Except.ok (Token.operator OperatorType._mod)
  else if currentToken = "**" then Except.ok (Token.operator OperatorType._pow)
  else if currentToken = "and" ∨ currentToken = "&&" then Except.ok (Token.operator OperatorType._and)
  else if currentToken = "or" ∨ currentToken = "||" then Except.ok (Token.operator OperatorType._or)
  else if currentToken = "!" ∨ currentToken = "not" then Except.ok (Token.operator OperatorType._not)
  else if currentToken = "^" ∨ currentToken = "xor" then Except.ok (Token.operator OperatorType._xor)
  else if currentToken = "==" then Except.ok (Token.operator OperatorType._eq)
  else if currentToken = "!=" then Except.ok (Token.operator OperatorType._neq)
  else if currentToken = ">=" then Except.ok (Token.operator OperatorType._gte)
  else if currentToken = "<=" then Except.ok (Token.operator OperatorType._lte)
  else if currentToken = ">" then Except.ok (Token.operator OperatorType._gt)
  else if currentToken = "<" then Except.ok (Token.operator OperatorType._lt)
  else if currentToken = "=" then Except.ok (Token.operator OperatorType._ass)
  else if currentToken = "+=" then Except.ok (Token.operator OperatorType._assAdd)
  else if currentToken = "-=" then Except.ok (Token.operator OperatorType._assSub)
  else if currentToken = "*=" then Except.ok (Token.operator OperatorType._assMul)
  else if currentToken = "/=" then Except.ok (Token.operator OperatorType._assDiv)
  else if currentToken = "%=" then Except.ok (Token.operator OperatorType._assMod)
  else if currentToken = "**=" then Except.ok (Token.operator OperatorType._assPow)
  else if currentToken = "(" then Except.ok (Token.delimiter DelimiterType._bracketOpen)
  else if currentToken = ")" then Except.ok (Token.delimiter DelimiterType._bracketClose)
  else if currentToken = "\x7b" then Except.ok (Token.delimiter DelimiterType._braceOpen)
  else if currentToken = "\x7d" then Except.ok (Token.delimiter DelimiterType._braceClose)
  else if currentToken = "[" then Except.ok (Token.delimiter DelimiterType._sqOpen)
  else if currentToken = "]" then Except.ok (Token.delimiter DelimiterType._sqClose)
  else
    match currentToken.data with
    | [] => Except.error ("string index out of range")
    | c :: _ =>
      if c.isDigit then
        if currentToken.data.all (fun x => x.isDigit ∨ x = Char.ofNat 46) then
          if currentToken.data.countP (fun x => x = Char.ofNat 46) = 0 then
            Except.ok (Token.literal LiteralType._intLit currentToken)
          else if currentToken.data.countP (fun x => x = Char.ofNat 46) = 1 then
            Except.ok (Token.literal LiteralType._floatLit currentToken)
          else
            Except.error ("Invalid number literal. Only one or zero dots permitted")
        else
          Except.error ("Invalid number literal.")
      else if c = Char.ofNat 95 ∨ c.isAlpha then
        if currentToken.data.all (fun x => x = Char.ofNat 95 ∨ x.isAlphanum) then
          Except.ok (Token.identifier currentToken)
        else
          Except.error ("Identifiers must start with an underscore or a letter and hold only underscores, letters or digits")
      else
        Except.error ("The given token is invalid")

/-- The escape table of the switch in Tokenizer::_getTokens: the
character following a backslash is decoded, and any character outside
the table throws. -/
def decodeEscape (c : Char) : Except String Char :=
  if c = 'n' then Except.ok newlineChar
  else if c = 't' then Except.ok tabChar
  else if c = 'r' then Except.ok (Char.ofNat 13)
  else if c = 'b' then Except.ok (Char.ofNat 8)
  else if c = 'v' then Except.ok (Char.ofNat 11)
  else if c = 'f' then Except.ok (Char.ofNat 12)
  else if c = '0' then Except.ok (Char.ofNat 0)
  else if c = tickChar then Except.ok c
  else if c = quoteChar then Except.ok c
  else if c = backslashChar then Except.ok c
  else Except.error ("Invalid character after the escape character.")

/-- The local state of the loop in Tokenizer::_getTokens: the four mode
flags, the in-progress token text and the tokens emitted so far. -/
structure ScanState where
  escapeMode : Bool
  commentMode : Bool
  stringMode : Bool
  charMode : Bool
  currentToken : String
  tokens : List Token
  deriving DecidableEq

/-- The trailing part of the loop body of Tokenizer::_getTokens: the
(possibly escape-decoded) character is appended to the in-progress text,
and then, outside comment, string and char mode, an appended whitespace
character is emitted as a whitespace token and the text cleared. -/
def scanAppend (s : ScanState) (c : Char) : ScanState :=
  let s4 : ScanState := { s with currentToken := s.currentToken.push c }
  if s4.commentMode = false ∧ s4.stringMode = false ∧ s4.charMode = false then
    if c = newlineChar then
      { s4 with tokens := s4.tokens ++ [Token.whitespace WhiteSpaceType._newLine], currentToken := "" }
    else if c = tabChar then
      { s4 with tokens := s4.tokens ++ [Token.whitespace WhiteSpaceType._tab], currentToken := "" }
    else if c = spaceChar then
      { s4 with tokens := s4.tokens ++ [Token.whitespace WhiteSpaceType._space], currentToken := "" }
    else s4
  else s4

/-- One iteration of the character loop of Tokenizer::_getTokens, in the
order of the source: backslash entering escape mode, the hash branch,
the double-quote branch, the single-quote branch, then the newline
branch (which in the source does not end the iteration), then the
whitespace branch, then escape decoding and the appending tail.  The
classification failure at the newline branch is caught in the source and
the token dropped; the classification call in the space branch is not
guarded, so its error propagates, as do the char-literal length error
and the escape-table error. -/
def scanStep (s0 : ScanState) (current : Char) : Except String ScanState :=
  if s0.escapeMode = false ∧ current = backslashChar then
    Except.ok { s0 with escapeMode := true }
  else if current = hashChar ∧ s0.stringMode = false ∧ s0.charMode = false ∧ s0.commentMode = false then
    Except.ok { s0 with currentToken := "", commentMode := true }
  else if current = quoteChar ∧ s0.commentMode = false ∧ s0.charMode = false ∧ s0.escapeMode = false then
    if s0.stringMode = true then
      Except.ok { s0 with stringMode := false,
                          tokens := s0.tokens ++ [Token.literal LiteralType._stringLit s0.currentToken],
                          currentToken := "" }
    else
      Except.ok { s0 with currentToken := "", stringMode := true }
  else if current = tickChar ∧ s0.commentMode = false ∧ s0.stringMode = false ∧ s0.escapeMode = false then
    if s0.charMode = true then
      if ¬(s0.currentToken.length = 1) ∧
         ¬(s0.currentToken.length = 2 ∧ s0.currentToken.data.head? = some backslashChar) then
        Except.error ("The length of the character should exactly be 1.")
      else
        Except.ok { s0 with charMode := false,
                            tokens := s0.tokens ++ [Token.literal LiteralType._charLit s0.currentToken],
                            currentToken := "" }
    else
      Except.ok { s0 with currentToken := "", charMode := true }
  else
    let s1 : ScanState :=
      if current = newlineChar then
        let s2 : ScanState :=
          if s0.commentMode = true then
            { s0 with commentMode := false, tokens := s0.tokens ++ [Token.comment s0.currentToken] }
          else if s0.charMode = false ∧ s0.stringMode = false ∧ s0.currentToken.isEmpty = false then
            match parseCurrentToken s0.currentToken with
            | Except.ok t => { s0 with tokens := s0.tokens ++ [t] }
            | Except.error _ => s0
          else s0
        { s2 with tokens := s2.tokens ++ [Token.whitespace WhiteSpaceType._newLine], currentToken := "" }
      else s0
    if s1.commentMode = false ∧ s1.charMode = false ∧ s1.stringMode = false ∧
       (current = tabChar ∨ current = spaceChar ∨ current = newlineChar) then
      if current = spaceChar then
        match parseCurrentToken s1.currentToken with
        | Except.error e => Except.error e
        | Except.ok t =>
          Except.ok { s1 with tokens := s1.tokens ++ [t, Token.whitespace WhiteSpaceType._space],
                              currentToken := "" }
      else
        Except.ok { s1 with tokens := s1.tokens ++ [Token.whitespace WhiteSpaceType._tab],
                            currentToken := "" }
    else
      if s1.escapeMode = true then
        match decodeEscape current with
        | Except.error e => Except.error e
        | Except.ok c => Except.ok (scanAppend { s1 with escapeMode := false } c)
      else
        Except.ok (scanAppend s1 current)

/-- The character loop of Tokenizer::_getTokens over the remaining
characters; an uncaught throw aborts the whole loop. -/
def scanChars : ScanState → List Char → Except String ScanState
  | s, [] => Except.ok s
  | s, c :: cs =>
    match scanStep s c with
    | Except.error e => Except.error e
    | Except.ok s2 => scanChars s2 cs

/-- The epilogue of Tokenizer::_getTokens after the loop: a still-open
comment is emitted, otherwise a non-empty leftover text is classified
with the same catch-and-drop policy as the newline branch. -/
def scanFinish (s : ScanState) : List Token :=
  if s.commentMode = true then s.tokens ++ [Token.comment s.currentToken]
  else if s.charMode = false ∧ s.stringMode = false ∧ s.currentToken.isEmpty = false then
    match parseCurrentToken s.currentToken with
    | Except.ok t => s.tokens ++ [t]
    | Except.error _ => s.tokens
  else s.tokens

/-- The initial loop state of Tokenizer::_getTokens: all modes off,
empty text, no tokens. -/
def initialScanState : ScanState :=
  { escapeMode := false, commentMode := false, stringMode := false, charMode := false,
    currentToken := "", tokens := [] }

/-- Tokenizer::_getTokens as a function of the source text (the file
reading of readCode is outside the embedded core): runs the character
loop and the epilogue. -/
def scan (sourceCode : String) : Except String (List Token) :=
  (scanChars initialScanState sourceCode.data).map scanFinish

/-- ExpressionNode of expNode.hpp: one token and an ordered list of
children.  The C++ stores children by value, so the functional reading
is exact. -/
inductive ExpressionNode where
  | mk (token : Token) (children : List ExpressionNode)

/-- The wrapped token of a node. -/
def ExpressionNode.token : ExpressionNode → Token
  | .mk t _ => t

/-- The ordered child list of a node. -/
def ExpressionNode.children : ExpressionNode → List ExpressionNode
  | .mk _ cs => cs

/-- ExpressionNode::addChild: append at the end of the child list. -/
def ExpressionNode.addChild : ExpressionNode → ExpressionNode → ExpressionNode
  | .mk t cs, n => .mk t (cs ++ [n])

/-- ExpressionNode::getTokenType. -/
def ExpressionNode.getTokenType (n : ExpressionNode) : TokenType :=
  n.token.tokenType

/-- ExpressionNode::getToken: the integer subtype code of the wrapped
token. -/
def ExpressionNode.getToken (n : ExpressionNode) : Nat :=
  n.token.tokenIntCode

/-- Parser::isValidKeywordLiteralPair of parser.hpp: the scan of the
fixed 4-row table of valid keyword/literal code pairs. -/
def isValidKeywordLiteralPair (keyword literal : Nat) : Bool :=
  [(KeyWordType._int.toInt, LiteralType._intLit.toInt),
   (KeyWordType._char.toInt, LiteralType._charLit.toInt),
   (KeyWordType._string.toInt, LiteralType._stringLit.toInt),
   (KeyWordType._float.toInt, LiteralType._floatLit.toInt)].any
    (fun p => keyword = p.1 ∧ literal = p.2)

/-- The working state of Parser::parseTree: the two stacks (head of the
list is the stack top) and the children accumulated so far under the
synthetic root node. -/
structure ParseState where
  operandStack : List ExpressionNode
  expressionStack : List ExpressionNode
  rootChildren : List ExpressionNode

/-- One iteration of the token loop of Parser::parseTree: comments and
space/tab whitespace are skipped; the remaining whitespace token (a
newline) triggers statement assembly when the operand stack holds at
least 3 entries and the expression stack at least 1 (the match on the
two stacks is exactly that size test followed by the pops), with the
keyword/literal validation throwing on an invalid pair; literals,
identifiers and data-type keywords (enum codes between _int and _bool)
are pushed on the operand stack; every operator token is pushed on the
expression stack; all other tokens have no effect. -/
def parseStep (s : ParseState) (token : Token) : Except String ParseState :=
  if token.tokenType = TokenType._comment ∨
     (token.tokenType = TokenType._whitespace ∧
       (token.tokenIntCode = WhiteSpaceType._space.toInt ∨
        token.tokenIntCode = WhiteSpaceType._tab.toInt)) then
    Except.ok s
  else
    let node : ExpressionNode := ExpressionNode.mk token []
    if token.tokenType = TokenType._whitespace then
      match s.expressionStack, s.operandStack with
      | op :: restExpression, lit :: varName :: dataType :: restOperand =>
        if isValidKeywordLiteralPair dataType.getToken lit.getToken = false then
          Except.error ("Invalid assignment")
        else
          Except.ok { operandStack := restOperand,
                      expressionStack := restExpression,
                      rootChildren := s.rootChildren ++ [(op.addChild varName).addChild lit] }
      | _, _ => Except.ok s
    else if token.tokenType = TokenType._literal ∨ token.tokenType = TokenType._identifier ∨
            (token.tokenType = TokenType._keyWord ∧
              KeyWordType._int.toInt ≤ token.tokenIntCode ∧
              token.tokenIntCode ≤ KeyWordType._bool.toInt) then
      Except.ok { s with operandStack := node :: s.operandStack }
    else if token.tokenType = TokenType._operator then
      Except.ok { s with expressionStack := node :: s.expressionStack }
    else
      Except.ok s

/-- The token loop of Parser::parseTree over the remaining tokens; a
thrown validation error aborts the whole loop. -/
def parseSteps : ParseState → List Token → Except String ParseState
  | s, [] => Except.ok s
  | s, t :: ts =>
    match parseStep s t with
    | Except.error e => Except.error e
    | Except.ok s2 => parseSteps s2 ts

/-- The state Parser::parseTree starts from: both stacks empty, a root
with no children yet. -/
def initialParseState : ParseState :=
  { operandStack := [], expressionStack := [], rootChildren := [] }

/-- Parser construction: parseTree run over the whole token sequence,
producing the synthetic root (head, an expression token) with the
accumulated statements as its children.  An uncaught validation throw
aborts the build with no tree. -/
def build (tokens : List Token) : Except String ExpressionNode :=
  (parseSteps initialParseState tokens).map
    (fun st => ExpressionNode.mk Token.expression st.rootChildren)

/-- Claim C1, counterexample: scanning the text int x = 5 followed by a
newline does not yield exactly the eight tokens of the claim.  The scan
succeeds, but the newline branch of the scanner falls through into the
whitespace branch, which emits an extra ninth Whitespace(tab) token after
the Whitespace(newline), so the produced sequence differs from the
claimed one. -/
theorem claim1_counterexample :
    scan ("int x = 5\n") =
      Except.ok [Token.keyWord KeyWordType._int, Token.whitespace WhiteSpaceType._space,
        Token.identifier ("x"), Token.whitespace WhiteSpaceType._space,
        Token.operator OperatorType._ass, Token.whitespace WhiteSpaceType._space,
        Token.literal LiteralType._intLit ("5"), Token.whitespace WhiteSpaceType._newLine,
        Token.whitespace WhiteSpaceType._tab] ∧
    [Token.keyWord KeyWordType._int, Token.whitespace WhiteSpaceType._space,
        Token.identifier ("x"), Token.whitespace WhiteSpaceType._space,
        Token.operator OperatorType._ass, Token.whitespace WhiteSpaceType._space,
        Token.literal LiteralType._intLit ("5"), Token.whitespace WhiteSpaceType._newLine,
        Token.whitespace WhiteSpaceType._tab] ≠
      [Token.keyWord KeyWordType._int, Token.whitespace WhiteSpaceType._space,
        Token.identifier ("x"), Token.whitespace WhiteSpaceType._space,
        Token.operator OperatorType._ass, Token.whitespace WhiteSpaceType._space,
        Token.literal LiteralType._intLit ("5"), Token.whitespace WhiteSpaceType._newLine] := by
  exact ⟨rfl, by decide⟩

/-- Claim C1, amended: scanning int x = 5 newline yields the eight claimed
tokens followed by one extra Whitespace(tab) token, and building that
nine-token sequence yields a root with exactly one child: an
assignment-operator node whose children are Identifier x and
Literal(int, 5) in that order. -/
theorem claim1_roundtrip :
    scan ("int x = 5\n") =
      Except.ok [Token.keyWord KeyWordType._int, Token.whitespace WhiteSpaceType._space,
        Token.identifier ("x"), Token.whitespace WhiteSpaceType._space,
        Token.operator OperatorType._ass, Token.whitespace WhiteSpaceType._space,
        Token.literal LiteralType._intLit ("5"), Token.whitespace WhiteSpaceType._newLine,
        Token.whitespace WhiteSpaceType._tab] ∧
    (scan ("int x = 5\n")).bind build =
      Except.ok (ExpressionNode.mk Token.expression
        [ExpressionNode.mk (Token.operator OperatorType._ass)
          [ExpressionNode.mk (Token.identifier ("x")) [],
           ExpressionNode.mk (Token.literal LiteralType._intLit ("5")) []]]) := by
  exact ⟨rfl, rfl⟩

/-- Claim C2, counterexample: the scan does abort because of a single bad
token when the token is terminated by a space: the classification call in
the space branch is not guarded by a catch, so its error propagates and
kills the whole scan.  Scanning the two characters 3a followed by a space
and a newline aborts with the numeric-literal error, and scanning a
single space aborts because classification is attempted on the empty
pending text (the C++ evaluates at(0) of an empty string). -/
theorem claim2_counterexample :
    scan ("3a \n") = Except.error ("Invalid number literal.") ∧
    scan (" ") = Except.error ("string index out of range") := by
  exact ⟨rfl, rfl⟩

/-- Claim C2, amended: a classification failure is caught, the offending
token dropped and scanning continued only at the newline branch (and at
end of input); at a space the same failure is uncaught and aborts the
whole scan.  For any scanner state outside comment, char and string mode
whose pending text fails classification, processing a newline drops the
token and emits Whitespace(newline) then Whitespace(tab), while
processing a space propagates the classification error. -/
theorem claim2_amended (s : ScanState) (e : String)
    (hcm : s.commentMode = false) (hch : s.charMode = false) (hsm : s.stringMode = false)
    (herr : parseCurrentToken s.currentToken = Except.error e) :
    scanStep s newlineChar =
      Except.ok { s with tokens := s.tokens ++ [Token.whitespace WhiteSpaceType._newLine,
                                               Token.whitespace WhiteSpaceType._tab],
                         currentToken := "" } ∧
    scanStep s spaceChar = Except.error e := by
  have hnb : newlineChar ≠ backslashChar := by decide
  have hnh : newlineChar ≠ hashChar := by decide
  have hnq : newlineChar ≠ quoteChar := by decide
  have hnt : newlineChar ≠ tickChar := by decide
  have hns : newlineChar ≠ spaceChar := by decide
  have hsb : spaceChar ≠ backslashChar := by decide
  have hsh : spaceChar ≠ hashChar := by decide
  have hsq : spaceChar ≠ quoteChar := by decide
  have hst : spaceChar ≠ tickChar := by decide
  have hsn : spaceChar ≠ newlineChar := by decide
  constructor
  · cases hemp : s.currentToken.isEmpty
    · simp [scanStep, hcm, hch, hsm, hemp, herr, hnb, hnh, hnq, hnt, hns]
    · simp [scanStep, hcm, hch, hsm, hemp, herr, hnb, hnh, hnq, hnt, hns]
  · simp [scanStep, hcm, hch, hsm, herr, hsb, hsh, hsq, hst, hsn]

/-- Claim C2, witness for the amended theorem at the pending text 3a. -/
theorem claim2_witness :
    scanStep ⟨false, false, false, false, "3a", []⟩ newlineChar =
      Except.ok ⟨false, false, false, false, "",
        [Token.whitespace WhiteSpaceType._newLine, Token.whitespace WhiteSpaceType._tab]⟩ ∧
    scanStep ⟨false, false, false, false, "3a", []⟩ spaceChar =
      Except.error ("Invalid number literal.") :=
  claim2_amended ⟨false, false, false, false, "3a", []⟩ ("Invalid number literal.")
    rfl rfl rfl rfl

/-- Claim C3, counterexample: the parser stacks are not empty immediately
after processing a Whitespace(newline) token.  Feeding just an identifier
and a newline leaves the identifier node on the operand stack, and the
tokens of int x = read before one newline do take part in the statement
assembled at a later newline. -/
theorem claim3_counterexample :
    parseSteps initialParseState
        [Token.identifier ("x"), Token.whitespace WhiteSpaceType._newLine] =
      Except.ok { operandStack := [ExpressionNode.mk (Token.identifier ("x")) []],
                  expressionStack := [], rootChildren := [] } ∧
    build [Token.keyWord KeyWordType._int, Token.identifier ("x"),
           Token.operator OperatorType._ass, Token.whitespace WhiteSpaceType._newLine,
           Token.literal LiteralType._intLit ("5"), Token.whitespace WhiteSpaceType._newLine] =
      Except.ok (ExpressionNode.mk Token.expression
        [ExpressionNode.mk (Token.operator OperatorType._ass)
          [ExpressionNode.mk (Token.identifier ("x")) [],
           ExpressionNode.mk (Token.literal LiteralType._intLit ("5")) []]]) := by
  exact ⟨rfl, rfl⟩

/-- Claim C3, amended: the stacks are never cleared at a newline.  A
newline with an empty expression stack or with fewer than three operand
entries leaves the parser state completely unchanged (so operands and
operators read before one newline survive it and can take part in a
statement assembled at a later newline); when a statement is assembled,
exactly three operand entries and one expression entry are popped. -/
theorem claim3_amended (s : ParseState)
    (h : s.expressionStack = [] ∨ s.operandStack.length < 3) :
    parseStep s (Token.whitespace WhiteSpaceType._newLine) = Except.ok s := by
  obtain ⟨ops, exps, roots⟩ := s
  simp only [ParseState.operandStack, ParseState.expressionStack] at h
  rcases h with h | h
  · subst h
    simp [parseStep, Token.tokenType, Token.tokenIntCode, WhiteSpaceType.toInt]
  · rcases ops with _ | ⟨a, _ | ⟨b, _ | ⟨c, tl⟩⟩⟩
    · cases exps <;>
        simp [parseStep, Token.tokenType, Token.tokenIntCode, WhiteSpaceType.toInt]
    · cases exps <;>
        simp [parseStep, Token.tokenType, Token.tokenIntCode, WhiteSpaceType.toInt]
    · cases exps <;>
        simp [parseStep, Token.tokenType, Token.tokenIntCode, WhiteSpaceType.toInt]
    · simp at h
      omega

/-- Claim C3, witness for the amended theorem: a newline processed with
one identifier on the operand stack leaves it there. -/
theorem claim3_witness :
    parseStep ⟨[ExpressionNode.mk (Token.identifier ("x")) []], [], []⟩
        (Token.whitespace WhiteSpaceType._newLine) =
      Except.ok ⟨[ExpressionNode.mk (Token.identifier ("x")) []], [], []⟩ :=
  claim3_amended ⟨[ExpressionNode.mk (Token.identifier ("x")) []], [], []⟩ (Or.inl rfl)

/-- Claim C4, counterexample: a non-assignment operator node is attached
as a child of the root.  The sequence int x + 5 newline (with the add
operator, not an assignment) is assembled into a statement whose root
child is the add-operator node, because the parser pushes every operator
token onto the expression stack and the assembly at a newline never
inspects the operator subtype. -/
theorem claim4_counterexample :
    build [Token.keyWord KeyWordType._int, Token.identifier ("x"),
           Token.operator OperatorType._add, Token.literal LiteralType._intLit ("5"),
           Token.whitespace WhiteSpaceType._newLine] =
      Except.ok (ExpressionNode.mk Token.expression
        [ExpressionNode.mk (Token.operator OperatorType._add)
          [ExpressionNode.mk (Token.identifier ("x")) [],
           ExpressionNode.mk (Token.literal LiteralType._intLit ("5")) []]]) := by
  exact rfl

/-- Claim C4, amended: the build pushes every Operator token onto the
expression stack, whatever its subtype; no assignment-form check is
performed either at the push or at statement assembly, so non-assignment
operator nodes can become children of the root. -/
theorem claim4_amended (s : ParseState) (o : OperatorType) :
    parseStep s (Token.operator o) =
      Except.ok { s with
        expressionStack := ExpressionNode.mk (Token.operator o) [] :: s.expressionStack } := by
  simp [parseStep, Token.tokenType]

/-- Claim C5: building a single statement data-type-keyword, identifier,
assignment operator, literal, newline whose keyword/literal pair is not
one of the four valid ones fails with the fatal Invalid assignment parse
error, so no child is attached under the root and no tree is produced. -/
theorem claim5_invalid_assignment (k : KeyWordType) (name : String) (a : OperatorType)
    (l : LiteralType) (v : String)
    (hk : KeyWordType._int.toInt ≤ k.toInt ∧ k.toInt ≤ KeyWordType._bool.toInt)
    (_ha : a = OperatorType._ass ∨ a = OperatorType._assAdd ∨ a = OperatorType._assSub ∨
          a = OperatorType._assMul ∨ a = OperatorType._assDiv ∨ a = OperatorType._assMod ∨
          a = OperatorType._assPow)
    (hpair : isValidKeywordLiteralPair k.toInt l.toInt = false) :
    build [Token.keyWord k, Token.identifier name, Token.operator a, Token.literal l v,
           Token.whitespace WhiteSpaceType._newLine] =
      Except.error ("Invalid assignment") := by
  obtain ⟨hk1, hk2⟩ := hk
  simp [build, initialParseState, parseSteps, parseStep, Token.tokenType, Token.tokenIntCode,
    WhiteSpaceType.toInt, ExpressionNode.getToken, ExpressionNode.token, hk1, hk2, hpair,
    Except.map]

/-- Claim C5, witness: the token sequence for int x = "5" fails with the
Invalid assignment error. -/
theorem claim5_witness :
    build [Token.keyWord KeyWordType._int, Token.identifier ("x"),
           Token.operator OperatorType._ass, Token.literal LiteralType._stringLit ("5"),
           Token.whitespace WhiteSpaceType._newLine] =
      Except.error ("Invalid assignment") :=
  claim5_invalid_assignment KeyWordType._int ("x") OperatorType._ass LiteralType._stringLit ("5")
    (by decide) (Or.inl rfl) (by decide)

/-- Claim C6, counterexample: a closing single quote does not require the
accumulated text to be exactly one character.  Scanning a char literal
containing an escaped backslash followed by the letter n (five source
characters: quote, backslash, backslash, n, quote) accumulates the
two-character text backslash-n, and the scan succeeds and emits a
Char-literal token for it instead of failing, because the length check
also admits length-two texts whose first character is a backslash. -/
theorem claim6_counterexample :
    scan (String.mk [tickChar, backslashChar, backslashChar, 'n', tickChar]) =
      Except.ok [Token.literal LiteralType._charLit (String.mk [backslashChar, 'n'])] ∧
    (String.mk [backslashChar, 'n']).length = 2 := by
  exact ⟨rfl, rfl⟩

/-- Claim C6, amended: when a character literal closes, the accumulated
text must be exactly one character, or exactly two characters the first
of which is a backslash; in every other case the scan fails with the
length-one lex error and no Char-literal token is emitted (in particular
the input quote a b quote fails). -/
theorem claim6_amended (s : ScanState)
    (hch : s.charMode = true) (hcm : s.commentMode = false) (hsm : s.stringMode = false)
    (hesc : s.escapeMode = false)
    (hlen : ¬(s.currentToken.length = 1) ∧
            ¬(s.currentToken.length = 2 ∧ s.currentToken.data.head? = some backslashChar)) :
    scanStep s tickChar =
      Except.error ("The length of the character should exactly be 1.") := by
  have htb : tickChar ≠ backslashChar := by decide
  have hth : tickChar ≠ hashChar := by decide
  have htq : tickChar ≠ quoteChar := by decide
  simp [scanStep, hch, hcm, hsm, hesc, hlen.1, hlen.2, htb, hth, htq]

/-- Claim C6, witness for the amended theorem at the accumulated text ab. -/
theorem claim6_witness :
    scanStep ⟨false, false, false, true, "ab", []⟩ tickChar =
      Except.error ("The length of the character should exactly be 1.") :=
  claim6_amended ⟨false, false, false, true, "ab", []⟩ rfl rfl rfl rfl (by decide)

/-- Claim C7: getPriority is a pure function of the token returning 0 for
every non-operator token, and for operator tokens exactly the table
Power 80, Not 70, multiplicative 60, additive 50, relational 40,
equality 35, And 30, Xor 25, Or 20 and 10 for each of the seven
assignment forms. -/
theorem claim7_priority_table :
    (∀ t : Token, t.tokenType ≠ TokenType._operator → t.getPriority = 0) ∧
    (Token.operator OperatorType._pow).getPriority = 80 ∧
    (Token.operator OperatorType._not).getPriority = 70 ∧
    (Token.operator OperatorType._mul).getPriority = 60 ∧
    (Token.operator OperatorType._div).getPriority = 60 ∧
    (Token.operator OperatorType._mod).getPriority = 60 ∧
    (Token.operator OperatorType._add).getPriority = 50 ∧
    (Token.operator OperatorType._sub).getPriority = 50 ∧
    (Token.operator OperatorType._gt).getPriority = 40 ∧
    (Token.operator OperatorType._lt).getPriority = 40 ∧
    (Token.operator OperatorType._gte).getPriority = 40 ∧
    (Token.operator OperatorType._lte).getPriority = 40 ∧
    (Token.operator OperatorType._eq).getPriority = 35 ∧
    (Token.operator OperatorType._neq).getPriority = 35 ∧
    (Token.operator OperatorType._and).getPriority = 30 ∧
    (Token.operator OperatorType._xor).getPriority = 25 ∧
    (Token.operator OperatorType._or).getPriority = 20 ∧
    (Token.operator OperatorType._ass).getPriority = 10 ∧
    (Token.operator OperatorType._assAdd).getPriority = 10 ∧
    (Token.operator OperatorType._assSub).getPriority = 10 ∧
    (Token.operator OperatorType._assMul).getPriority = 10 ∧
    (Token.operator OperatorType._assDiv).getPriority = 10 ∧
    (Token.operator OperatorType._assMod).getPriority = 10 ∧
    (Token.operator OperatorType._assPow).getPriority = 10 := by
  refine ⟨?_, rfl, rfl, rfl, rfl, rfl, rfl, rfl, rfl, rfl, rfl, rfl, rfl, rfl, rfl, rfl,
    rfl, rfl, rfl, rfl, rfl, rfl, rfl, rfl⟩
  intro t h
  cases t <;> first | rfl | exact absurd rfl h

/-- Claim C7, witness: the non-operator part of the table applied to a
comment token and a keyword token. -/
theorem claim7_witness :
    (Token.comment ("c")).getPriority = 0 ∧
    (Token.keyWord KeyWordType._int).getPriority = 0 :=
  ⟨claim7_priority_table.1 (Token.comment ("c")) (by decide),
   claim7_priority_table.1 (Token.keyWord KeyWordType._int) (by decide)⟩

/-- Claim C8, counterexample: classification maps the spelling str to an
Identifier token, not to the string data-type Keyword token: the keyword
comparison chain of the tokenizer tests the spelling string but never
str, so str falls through to the identifier branch. -/
theorem claim8_counterexample :
    parseCurrentToken ("str") = Except.ok (Token.identifier ("str")) ∧
    (Token.identifier ("str")).tokenType ≠ TokenType._keyWord := by
  exact ⟨rfl, by decide⟩

/-- Claim C8, amended: only the spelling string maps to the string
data-type Keyword token; the spelling str classifies as an Identifier
token carrying the text str. -/
theorem claim8_amended :
    parseCurrentToken ("string") = Except.ok (Token.keyWord KeyWordType._string) ∧
    parseCurrentToken ("str") = Except.ok (Token.identifier ("str")) := by
  exact ⟨rfl, rfl⟩

/-- Claim C9, counterexample: in escape-pending mode the current
character is not always handled by the escape rule first.  A hash after
a backslash silently starts a comment (the scan of backslash hash
succeeds and yields an empty comment token), a tab after a backslash is
handled by the whitespace branch (the scan yields a Whitespace(tab)
token), and a newline after a backslash is handled by the newline branch
(the scan yields Whitespace(newline) and the extra Whitespace(tab)); none
of the three raises the invalid-escape error the claim requires. -/
theorem claim9_counterexample :
    scan (String.mk [backslashChar, hashChar]) = Except.ok [Token.comment ("")] ∧
    scan (String.mk [backslashChar, tabChar]) =
      Except.ok [Token.whitespace WhiteSpaceType._tab] ∧
    scan (String.mk [backslashChar, newlineChar]) =
      Except.ok [Token.whitespace WhiteSpaceType._newLine,
                 Token.whitespace WhiteSpaceType._tab] := by
  exact ⟨rfl, rfl, rfl⟩

/-- Claim C9, amended: in escape-pending mode, the hash, newline, tab and
space rules still run before the escape rule; only a character reaching
the escape rule is mapped through the fixed table, and a character
outside the table then raises the fatal invalid-escape error. -/
theorem claim9_amended (s : ScanState) (c : Char) (e : String)
    (hesc : s.escapeMode = true)
    (hcm : s.commentMode = false) (hsm : s.stringMode = false) (hch : s.charMode = false)
    (h1 : c ≠ hashChar) (h2 : c ≠ newlineChar) (h3 : c ≠ tabChar) (h4 : c ≠ spaceChar)
    (hdec : decodeEscape c = Except.error e) :
    scanStep s c = Except.error e := by
  simp [scanStep, hesc, hcm, hsm, hch, h1, h2, h3, h4, hdec]

/-- Claim C9, witness for the amended theorem: the letter x after a
backslash raises the invalid-escape error. -/
theorem claim9_witness :
    scanStep ⟨true, false, false, false, "", []⟩ 'x' =
      Except.error ("Invalid character after the escape character.") :=
  claim9_amended ⟨true, false, false, false, "", []⟩ 'x'
    ("Invalid character after the escape character.") rfl rfl rfl rfl
    (by decide) (by decide) (by decide) (by decide) rfl

/-- Claim C10: getPriority returns 0 exactly when getAssociativity
returns NonAssoc; every Operator token has a strictly positive priority
and a Left or Right associativity, and every non-Operator token has
priority 0 and NonAssoc associativity. -/
theorem claim10_priority_associativity (t : Token) :
    (t.getPriority = 0 ↔ t.getAssociativity = Associativity.NonAssoc) ∧
    (t.tokenType = TokenType._operator →
      0 < t.getPriority ∧ ¬(t.getAssociativity = Associativity.NonAssoc)) ∧
    (t.tokenType ≠ TokenType._operator →
      t.getPriority = 0 ∧ t.getAssociativity = Associativity.NonAssoc) := by
  cases t with
  | operator o =>
    cases o <;> exact ⟨by decide, fun _ => by decide, fun h => absurd rfl h⟩
  | keyWord k => exact ⟨by simp [Token.getPriority, Token.getAssociativity],
      fun h => by simp [Token.tokenType] at h, fun _ => ⟨rfl, rfl⟩⟩
  | identifier name => exact ⟨by simp [Token.getPriority, Token.getAssociativity],
      fun h => by simp [Token.tokenType] at h, fun _ => ⟨rfl, rfl⟩⟩
  | literal l v => exact ⟨by simp [Token.getPriority, Token.getAssociativity],
      fun h => by simp [Token.tokenType] at h, fun _ => ⟨rfl, rfl⟩⟩
  | delimiter d => exact ⟨by simp [Token.getPriority, Token.getAssociativity],
      fun h => by simp [Token.tokenType] at h, fun _ => ⟨rfl, rfl⟩⟩
  | comment text => exact ⟨by simp [Token.getPriority, Token.getAssociativity],
      fun h => by simp [Token.tokenType] at h, fun _ => ⟨rfl, rfl⟩⟩
  | whitespace w => exact ⟨by simp [Token.getPriority, Token.getAssociativity],
      fun h => by simp [Token.tokenType] at h, fun _ => ⟨rfl, rfl⟩⟩
  | expression => exact ⟨by simp [Token.getPriority, Token.getAssociativity],
      fun h => by simp [Token.tokenType] at h, fun _ => ⟨rfl, rfl⟩⟩

/-- Claim C10, witness: the two implications applied to the add operator
and to an identifier token. -/
theorem claim10_witness :
    (0 < (Token.operator OperatorType._add).getPriority ∧
      ¬((Token.operator OperatorType._add).getAssociativity = Associativity.NonAssoc)) ∧
    ((Token.identifier ("x")).getPriority = 0 ∧
      (Token.identifier ("x")).getAssociativity = Associativity.NonAssoc) :=
  ⟨(claim10_priority_associativity (Token.operator OperatorType._add)).2.1 rfl,
   (claim10_priority_associativity (Token.identifier ("x"))).2.2 (by decide)⟩

end HoPiler
